import Mathlib

/-!
Shallow embedding of the workflow execution engine of `rajcrewsai`
(`backend/app/services/workflow_engine.py`, with the pieces of
`crewai_service.py` and the `WorkflowStatus` schema it uses).

Python dicts with a fixed set of keys are embedded as structures whose
possibly-absent keys are `Option`-valued; `dict.get(k, d)` becomes
`Option.getD`.  `datetime.utcnow()` values are abstract clock readings
passed in explicitly (as natural-number timestamps).  The agent invoker
(`crewai`'s `agent.execute_task`, an external library call) is abstracted
by an oracle giving, per task index, the outcome the invoker would
produce.  Fractions such as the progress value `(i+1)/total_tasks` are
embedded as exact rationals.
-/

namespace RajCrewsAI

/-- Execution state machine of `app/models/database.py::ExecutionStatus`. -/
inductive ExecutionStatus where
  | pending
  | running
  | completed
  | failed
  | cancelled
deriving DecidableEq, Repr

/-- A materialized crewai agent; only its `role` is observed by the engine. -/
structure Agent where
  role : String
deriving DecidableEq, Repr

/-- Task specification, `app/schemas/workflow.py::TaskDefinition`.
`context` and `config` are carried only into the external `Task`
constructor and are omitted. -/
structure TaskDefinition where
  name : String
  description : String
  expected_output : Option String := none
  agent_id : Option String := none
deriving DecidableEq, Repr

/-- Outcome of one external agent-invoker call (`agent.execute_task`):
either a result text with the elapsed milliseconds, or an exception
with a message. -/
inductive InvokeOutcome where
  | success (text : String) (elapsedMs : Nat)
  | failure (msg : String)
deriving DecidableEq, Repr

/-- A per-task result dict as returned by
`crewai_service.py::execute_workflow_step` or by the exception handler of
`workflow_engine.py::_execute_task`.  Every key that any of those return
paths writes is a field; keys a path does not write are `none`. -/
structure TaskResult where
  status : ExecutionStatus
  step_id : Option String := none
  result : Option String := none
  error : Option String := none
  agent : Option String := none
  task : Option String := none
  task_name : Option String := none
  execution_time : Option Nat := none
  tokens_used : Option Nat := none
deriving DecidableEq, Repr

/-- An event published to the monitoring service
(`monitoring_service.log_workflow_event`); the engine's claims only
depend on the workflow id and the event type. -/
structure Event where
  workflow_id : String
  event_type : String
deriving DecidableEq, Repr

/-- Embedding of `crewai_service.py::execute_workflow_step`.  On success
the returned dict has keys `step_id`, `status=COMPLETED`, `result`,
`execution_time`, `agent`, `task` (note: no `tokens_used` key); on an
invoker exception it has `step_id`, `status=FAILED`, `error`, `agent`,
`task`. -/
def execute_workflow_step (agent : Agent) (taskName : String)
    (stepId : String) (o : InvokeOutcome) : TaskResult :=
  match o with
  | .success text t =>
      { status := .completed
        step_id := some stepId
        result := some text
        execution_time := some t
        agent := some agent.role
        task := some taskName }
  | .failure m =>
      { status := .failed
        step_id := some stepId
        error := some m
        agent := some agent.role
        task := some taskName }

/-- Embedding of `crewai_service.py::create_agents_from_templates`: each
template either materializes into an agent via `create_agent` or raises
(the constructor call is external); failed templates are skipped
(`continue`), so the result is the list of successfully materialized
agents. -/
def create_agents_from_templates (templates : List (Option Agent)) : List Agent :=
  templates.filterMap id

/-- Agent selection of `workflow_engine.py::_execute_task` lines 271-278:
the agent whose role equals `task_def.agent_id` if that is set and found,
else the first agent, else `none`. -/
def select_agent (agents : List Agent) (agent_id : Option String) : Option Agent :=
  let byId := match agent_id with
    | some aid => agents.find? (fun a => a.role = aid)
    | none => none
  match byId with
  | some a => some a
  | none => agents.head?

/-- Embedding of `workflow_engine.py::_execute_task`: select an agent,
raise `ValueError("No agent available for task")` if none (caught by the
method's own handler, yielding a FAILED dict with `error` and
`task_name`), else delegate to `execute_workflow_step` with step id
`"task_" + task name`. -/
def execute_task (task_def : TaskDefinition) (agents : List Agent)
    (o : InvokeOutcome) : TaskResult :=
  match select_agent agents task_def.agent_id with
  | none =>
      { status := .failed
        error := some "No agent available for task"
        task_name := some task_def.name }
  | some agent =>
      execute_workflow_step agent task_def.name ("task_" ++ task_def.name) o

/-- Crew descriptor as consumed by the engine: `crew_data.get("name",
"Unknown")` and `crew_data.get("agents", [])`. -/
structure CrewData where
  name : Option String := none
  agents : List (Option Agent) := []
deriving DecidableEq, Repr

/-- The mutable per-execution dict `workflow_data` of
`workflow_engine.py`.  Keys that are only written later in the lifetime
are `Option`-valued and start absent. -/
structure WorkflowData where
  execution_id : String
  workflow_id : String
  crew_data : CrewData
  tasks : List TaskDefinition
  inputs : List (String × String)
  status : ExecutionStatus
  created_at : Nat
  submitted_at : Nat
  progress : Option Rat := none
  current_task : Option String := none
  current_agent : Option String := none
  started_at : Option Nat := none
  completed_at : Option Nat := none
  cancelled_at : Option Nat := none
  estimated_completion : Option Nat := none
  error : Option String := none
  results : Option (List TaskResult) := none
  execution_time : Option Nat := none
  tokens_used : Option Nat := none
deriving DecidableEq, Repr

/-- The dict created by `submit_workflow` lines 42-51: status PENDING,
creation timestamps, no progress/started/completed keys yet. -/
def mk_workflow_data (eid wid : String) (crew : CrewData)
    (tasks : List TaskDefinition) (inputs : List (String × String))
    (now : Nat) : WorkflowData :=
  { execution_id := eid
    workflow_id := wid
    crew_data := crew
    tasks := tasks
    inputs := inputs
    status := .pending
    created_at := now
    submitted_at := now }

/-- Assignment `d[k] = v` on a Python dict embedded as an ordered
association list: replace the first binding of `k`, else append. -/
def dictSet (d : List (String × String)) (k v : String) : List (String × String) :=
  match d with
  | [] => [(k, v)]
  | (k', v') :: rest =>
      if k' = k then (k, v) :: rest else (k', v') :: dictSet rest k v

/-- Sum of `r.get("execution_time", 0)` over a result list
(line 216 of `workflow_engine.py`). -/
def total_execution_time (rs : List TaskResult) : Nat :=
  (rs.map (fun r => r.execution_time.getD 0)).sum

/-- Sum of `r.get("tokens_used", 0)` over a result list
(line 217 of `workflow_engine.py`). -/
def total_tokens_used (rs : List TaskResult) : Nat :=
  (rs.map (fun r => r.tokens_used.getD 0)).sum

/-- State threaded through the task loop of `_execute_workflow`
lines 160-205, together with the observation traces the claims are
about: the list of events published, and the successive values written
to `workflow_data["progress"]`. -/
structure LoopState where
  wd : WorkflowData
  results : List TaskResult
  events : List Event
  progressWrites : List Rat
deriving Repr

/-- The `for i, task_def in enumerate(tasks)` loop of
`_execute_workflow` lines 160-205.  `total` is `total_tasks`, `i` the
current index.  Each iteration: write `progress = (i+1)/total` and
`current_task`; publish `task_started`; run `_execute_task`; append the
result; update `current_agent` if the result's `agent` value is truthy;
publish `task_completed`; on a FAILED result set execution status
FAILED and the execution error and `break`; otherwise, if the result
text is truthy, store it in the shared inputs under `task_{i}_result`
and continue. -/
def run_tasks (agents : List Agent) (oracle : Nat → InvokeOutcome)
    (total : Nat) : List TaskDefinition → Nat → LoopState → LoopState
  | [], _, s => s
  | task_def :: rest, i, s =>
      let prog : Rat := ((i : Rat) + 1) / (total : Rat)
      let wd1 := { s.wd with progress := some prog, current_task := some task_def.name }
      let evs1 := s.events ++ [⟨wd1.workflow_id, "task_started"⟩]
      let r := execute_task task_def agents (oracle i)
      let results1 := s.results ++ [r]
      let wd2 :=
        if (r.agent.getD "") ≠ "" then { wd1 with current_agent := r.agent } else wd1
      let evs2 := evs1 ++ [⟨wd2.workflow_id, "task_completed"⟩]
      let writes1 := s.progressWrites ++ [prog]
      if r.status = .failed then
        { wd := { wd2 with status := .failed, error := some (r.error.getD "Task failed") }
          results := results1
          events := evs2
          progressWrites := writes1 }
      else
        let inputs3 := dictSet wd2.inputs ("task_" ++ toString i ++ "_result") (r.result.getD "")
        let wd3 :=
          if (r.result.getD "") ≠ "" then { wd2 with inputs := inputs3 } else wd2
        run_tasks agents oracle total rest (i + 1)
          { wd := wd3, results := results1, events := evs2, progressWrites := writes1 }

/-- Everything observable about one `_execute_workflow` run: the final
record, the locally produced result list, the events published, the
successive progress writes, the successive status writes, and the
exception (if any) that reached the top-level handler. -/
structure RunResult where
  record : WorkflowData
  results : List TaskResult
  events : List Event
  progressWrites : List Rat
  statusWrites : List ExecutionStatus
  raised : Option String
deriving Repr

/-- Embedding of `workflow_engine.py::_execute_workflow`.  `t0` is the
clock at start (`started_at`), `t1` the clock at completion
(`completed_at`).  Steps: set RUNNING and `started_at`; publish
`workflow_started`; materialize agents and raise
`ValueError("No agents created for workflow")` when none; run the task
loop; if not FAILED set COMPLETED, progress 1.0 and attach the results
list; stamp `completed_at`; store the summed totals; publish
`workflow_completed`.  Any exception is caught at the top: status
FAILED, `error` the exception message, `completed_at` stamped,
`workflow_failed` published; nothing propagates to the caller. -/
def execute_workflow (t0 t1 : Nat) (oracle : Nat → InvokeOutcome)
    (wd0 : WorkflowData) : RunResult :=
  let wd1 := { wd0 with status := .running, started_at := some t0 }
  let evs1 := [Event.mk wd0.workflow_id "workflow_started"]
  let agents := create_agents_from_templates wd0.crew_data.agents
  if agents.isEmpty then
    let e := "No agents created for workflow"
    { record := { wd1 with status := .failed, error := some e, completed_at := some t1 }
      results := []
      events := evs1 ++ [⟨wd0.workflow_id, "workflow_failed"⟩]
      progressWrites := []
      statusWrites := [.running, .failed]
      raised := some e }
  else
    let s := run_tasks agents oracle wd0.tasks.length wd0.tasks 0 ⟨wd1, [], evs1, []⟩
    let finishedCompleted := s.wd.status ≠ ExecutionStatus.failed
    let wd2 :=
      if finishedCompleted then
        { s.wd with status := .completed, progress := some 1, results := some s.results }
      else s.wd
    let wd3 := { wd2 with
      completed_at := some t1
      execution_time := some (total_execution_time s.results)
      tokens_used := some (total_tokens_used s.results) }
    { record := wd3
      results := s.results
      events := s.events ++ [⟨wd0.workflow_id, "workflow_completed"⟩]
      progressWrites :=
        s.progressWrites ++ (if finishedCompleted then [(1 : Rat)] else [])
      statusWrites :=
        [ExecutionStatus.running] ++
          (if s.wd.status = ExecutionStatus.failed then [ExecutionStatus.failed] else []) ++
          (if finishedCompleted then [ExecutionStatus.completed] else [])
      raised := none }

/-- Snapshot returned by status queries,
`app/schemas/workflow.py::WorkflowStatus`.  The schema has exactly these
fields; in particular it has no `error` field. -/
structure WorkflowStatusSnapshot where
  id : String
  name : String
  status : ExecutionStatus
  progress : Rat := 0
  current_task : Option String := none
  current_agent : Option String := none
  started_at : Option Nat := none
  estimated_completion : Option Nat := none
  tokens_used : Nat := 0
  execution_time : Nat := 0
deriving DecidableEq, Repr

/-- The `WorkflowStatus(...)` constructed by
`workflow_engine.py::get_workflow_status` lines 77-88 from one tracked
record (absent keys read through `.get` with their defaults). -/
def to_status (wid : String) (wd : WorkflowData) : WorkflowStatusSnapshot :=
  { id := wid
    name := wd.crew_data.name.getD "Unknown"
    status := wd.status
    progress := wd.progress.getD 0
    current_task := wd.current_task
    current_agent := wd.current_agent
    started_at := wd.started_at
    estimated_completion := wd.estimated_completion
    tokens_used := wd.tokens_used.getD 0
    execution_time := wd.execution_time.getD 0 }

/-- State owned by the `WorkflowEngine` object: the insertion-ordered
dict `active_workflows` keyed by execution id, the FIFO
`execution_queue` (the queue holds the same record objects as the dict;
it is embedded as the list of their execution ids), and the stream of
events published so far. -/
structure EngineState where
  active_workflows : List (String × WorkflowData) := []
  queue : List String := []
  events : List Event := []
deriving Repr

/-- Dict lookup `active_workflows[eid]` (first binding of the key). -/
def lookupExec (s : EngineState) (eid : String) : Option WorkflowData :=
  (s.active_workflows.find? (fun p => p.1 = eid)).map (fun p => p.2)

/-- In-place mutation of the record stored under `eid`: Python mutates
the dict object, which keeps its position in the insertion order. -/
def storeExec (m : List (String × WorkflowData)) (eid : String)
    (wd : WorkflowData) : List (String × WorkflowData) :=
  match m with
  | [] => []
  | (k, v) :: rest =>
      if k = eid then (k, wd) :: rest else (k, v) :: storeExec rest eid wd

/-- Embedding of `workflow_engine.py::submit_workflow`: build the
PENDING record, enqueue it, track it under the (fresh, uuid4-generated)
execution id, publish `workflow_submitted`. -/
def submit_workflow (s : EngineState) (eid wid : String) (crew : CrewData)
    (tasks : List TaskDefinition) (inputs : List (String × String))
    (now : Nat) : EngineState :=
  let wd := mk_workflow_data eid wid crew tasks inputs now
  { active_workflows := s.active_workflows ++ [(eid, wd)]
    queue := s.queue ++ [eid]
    events := s.events ++ [⟨wid, "workflow_submitted"⟩] }

/-- Embedding of `workflow_engine.py::get_workflow_status` lines 73-89:
scan `active_workflows` in insertion order and return the snapshot of
the first record whose workflow id matches, else `None`. -/
def get_workflow_status : List (String × WorkflowData) → String → Option WorkflowStatusSnapshot
  | [], _ => none
  | (_, wd) :: rest, wid =>
      if wd.workflow_id = wid then some (to_status wid wd)
      else get_workflow_status rest wid

/-- Embedding of `workflow_engine.py::cancel_workflow`: if the execution
id is tracked, set status CANCELLED, stamp `cancelled_at`, publish
`workflow_cancelled` and return `true`; otherwise return `false`.  The
record is not removed from the queue and no other field changes. -/
def cancel_workflow (s : EngineState) (eid : String) (now : Nat) :
    EngineState × Bool :=
  match lookupExec s eid with
  | none => (s, false)
  | some wd =>
      let wd' := { wd with status := .cancelled, cancelled_at := some now }
      ({ s with
          active_workflows := storeExec s.active_workflows eid wd'
          events := s.events ++ [⟨wd.workflow_id, "workflow_cancelled"⟩] },
        true)

/-- One iteration of `_workflow_worker`: dequeue the oldest submission
and run `_execute_workflow` on its record (the queue holds the record
object itself; mutations land in the tracked dict entry). -/
def worker_step (s : EngineState) (t0 t1 : Nat)
    (oracle : Nat → InvokeOutcome) : EngineState :=
  match s.queue with
  | [] => s
  | eid :: rest =>
      match lookupExec s eid with
      | none => { s with queue := rest }
      | some wd =>
          let R := execute_workflow t0 t1 oracle wd
          { active_workflows := storeExec s.active_workflows eid R.record
            queue := rest
            events := s.events ++ R.events }

/-- Reaping condition of `cleanup_completed_workflows` lines 337-341:
terminal status, `completed_at` present, and strictly more than
3600 seconds old. -/
def shouldReap (wd : WorkflowData) (now : Nat) : Bool :=
  decide (wd.status = ExecutionStatus.completed ∨ wd.status = ExecutionStatus.failed ∨
      wd.status = ExecutionStatus.cancelled) &&
    match wd.completed_at with
    | some c => decide ((3600 : Int) < (now : Int) - (c : Int))
    | none => false

/-- Embedding of `workflow_engine.py::cleanup_completed_workflows`:
first collect the execution ids of reapable records, then delete those
ids from the dict. -/
def cleanup_completed_workflows (s : EngineState) (now : Nat) : EngineState :=
  let ids := (s.active_workflows.filter (fun p => shouldReap p.2 now)).map (fun p => p.1)
  { s with active_workflows := s.active_workflows.filter (fun p => ¬ p.1 ∈ ids) }

/-! Concrete fixtures used by witnesses and counterexamples. -/

/-- A materialized agent used by the concrete scenarios. -/
def agentA : Agent := ⟨"analyst"⟩

/-- A crew with one materializable agent. -/
def crewA : CrewData := { name := some "Crew A", agents := [some agentA] }

/-- A crew with a different name, also with one materializable agent. -/
def crewB : CrewData := { name := some "Crew B", agents := [some agentA] }

/-- A crew whose agent list is empty. -/
def crewEmpty : CrewData := { name := some "Crew E", agents := [] }

/-- First concrete task. -/
def taskA1 : TaskDefinition := { name := "t1", description := "d1" }

/-- Second concrete task. -/
def taskA2 : TaskDefinition := { name := "t2", description := "d2" }

/-- Third concrete task. -/
def taskA3 : TaskDefinition := { name := "t3", description := "d3" }

/-- Oracle under which every invoker call succeeds. -/
def oracleOk : Nat → InvokeOutcome := fun _ => .success "ok" 7

/-- Oracle under which every invoker call raises `"boom"`. -/
def oracleBoom : Nat → InvokeOutcome := fun _ => .failure "boom"

/-- Oracle under which the second task (index 1) raises `"timeout"` and
the others succeed. -/
def oracleSecondFails : Nat → InvokeOutcome :=
  fun i => if i = 1 then .failure "timeout" else .success "ok" 5

/-- Engine state after two submissions sharing workflow id `"w"`: the
execution `"e1"` (crew `"Crew A"`) is created at time 0, then `"e2"`
(crew `"Crew B"`) at time 5. -/
def S4 : EngineState :=
  submit_workflow (submit_workflow {} "e1" "w" crewA [] [] 0) "e2" "w" crewB [] [] 5

/-- A FAILED record whose error is `"boom"`. -/
def wdFail1 : WorkflowData :=
  { mk_workflow_data "e1" "w" crewA [] [] 0 with
      status := .failed, error := some "boom" }

/-- The same FAILED record but with error `"crash"`. -/
def wdFail2 : WorkflowData :=
  { mk_workflow_data "e1" "w" crewA [] [] 0 with
      status := .failed, error := some "crash" }

/-- Engine state with one freshly submitted one-task workflow. -/
def S7a : EngineState := submit_workflow {} "e1" "w" crewA [taskA1] [] 0

/-- `S7a` after cancelling the still-PENDING execution `"e1"`. -/
def S7b : EngineState := (cancel_workflow S7a "e1" 0).1

/-- Engine state with one freshly submitted zero-task workflow. -/
def S9a : EngineState := submit_workflow {} "e1" "w" crewA [] [] 0

/-- `S9a` after cancelling the still-PENDING execution `"e1"`. -/
def S9b : EngineState := (cancel_workflow S9a "e1" 0).1

/-- `S9b` after a worker dequeues and runs the cancelled execution. -/
def S9c : EngineState := worker_step S9b 1 2 oracleOk

/-- The TaskResults that executing the given tasks sequentially
produces, task number `j` of the list (0-based, starting at loop index
`i`) via the invoker outcome `oracle (i + j)`. -/
def results_of (agents : List Agent) (oracle : Nat → InvokeOutcome) :
    List TaskDefinition → Nat → List TaskResult
  | [], _ => []
  | t :: rest, i => execute_task t agents (oracle i) :: results_of agents oracle rest (i + 1)

/-- The progress fraction `n / total` as an exact rational (the loop
writes `progress_val total (i+1)` at iteration `i`). -/
def progress_val (total n : Nat) : Rat :=
  (n : Rat) / (total : Rat)

/-- Number of loop iterations the task loop performs before stopping:
every task up to and including the first FAILED one, or all of them. -/
def executed_count (agents : List Agent) (oracle : Nat → InvokeOutcome) :
    List TaskDefinition → Nat → Nat
  | [], _ => 0
  | t :: rest, i =>
      if (execute_task t agents (oracle i)).status = .failed then 1
      else 1 + executed_count agents oracle rest (i + 1)

/-! Helper lemmas about the task loop and the status scan. -/

/-- The status scan is the first-match search over the insertion-ordered
dict: it returns the snapshot of the first tracked record whose
workflow id matches. -/
theorem get_workflow_status_eq_find (m : List (String × WorkflowData)) (wid : String) :
    get_workflow_status m wid
      = (m.find? (fun p => p.2.workflow_id = wid)).map (fun p => to_status wid p.2) := by
  induction m with
  | nil => rfl
  | cons p rest ih =>
      rcases p with ⟨k, wd⟩
      by_cases h : wd.workflow_id = wid
      · simp [get_workflow_status, List.find?, h]
      · simp [get_workflow_status, List.find?, h, ih]

/-- The task loop never writes the `results` key of the record. -/
theorem run_tasks_results_inv (agents : List Agent) (oracle : Nat → InvokeOutcome)
    (total : Nat) :
    ∀ (ts : List TaskDefinition) (i : Nat) (s : LoopState),
      (run_tasks agents oracle total ts i s).wd.results = s.wd.results := by
  intro ts
  induction ts with
  | nil => intro i s; rfl
  | cons t rest ih =>
      intro i s
      simp only [run_tasks]
      split
      · simp [apply_ite WorkflowData.results]
      · rw [ih]; simp [apply_ite WorkflowData.results]

/-- The task loop never writes the `completed_at` key of the record. -/
theorem run_tasks_completed_at_inv (agents : List Agent) (oracle : Nat → InvokeOutcome)
    (total : Nat) :
    ∀ (ts : List TaskDefinition) (i : Nat) (s : LoopState),
      (run_tasks agents oracle total ts i s).wd.completed_at = s.wd.completed_at := by
  intro ts
  induction ts with
  | nil => intro i s; rfl
  | cons t rest ih =>
      intro i s
      simp only [run_tasks]
      split
      · simp [apply_ite WorkflowData.completed_at]
      · rw [ih]; simp [apply_ite WorkflowData.completed_at]

/-- The task loop never writes the `started_at` key of the record. -/
theorem run_tasks_started_at_inv (agents : List Agent) (oracle : Nat → InvokeOutcome)
    (total : Nat) :
    ∀ (ts : List TaskDefinition) (i : Nat) (s : LoopState),
      (run_tasks agents oracle total ts i s).wd.started_at = s.wd.started_at := by
  intro ts
  induction ts with
  | nil => intro i s; rfl
  | cons t rest ih =>
      intro i s
      simp only [run_tasks]
      split
      · simp [apply_ite WorkflowData.started_at]
      · rw [ih]; simp [apply_ite WorkflowData.started_at]

/-- The task loop only ever writes FAILED to the record's status, and
then only together with an error message. -/
theorem run_tasks_status_inv (agents : List Agent) (oracle : Nat → InvokeOutcome)
    (total : Nat) :
    ∀ (ts : List TaskDefinition) (i : Nat) (s : LoopState),
      (run_tasks agents oracle total ts i s).wd.status = s.wd.status ∨
        ((run_tasks agents oracle total ts i s).wd.status = .failed ∧
          ∃ msg, (run_tasks agents oracle total ts i s).wd.error = some msg) := by
  intro ts
  induction ts with
  | nil => intro i s; exact Or.inl rfl
  | cons t rest ih =>
      intro i s
      simp only [run_tasks]
      split
      · exact Or.inr ⟨rfl, _, rfl⟩
      · rcases ih (i + 1) _ with h | h
        · left; rw [h]; simp [apply_ite WorkflowData.status]
        · exact Or.inr h

/-- A loop run that starts from a non-FAILED record and ends FAILED has
recorded an error message. -/
theorem run_tasks_failed_error (agents : List Agent) (oracle : Nat → InvokeOutcome)
    (total : Nat) (ts : List TaskDefinition) (i : Nat) (s : LoopState)
    (hstart : s.wd.status ≠ .failed)
    (hfail : (run_tasks agents oracle total ts i s).wd.status = .failed) :
    ∃ msg, (run_tasks agents oracle total ts i s).wd.error = some msg := by
  rcases run_tasks_status_inv agents oracle total ts i s with h | h
  · exact absurd (h ▸ hfail) hstart
  · exact h.2

/-- Sequential execution produces one TaskResult per task. -/
theorem results_of_length (agents : List Agent) (oracle : Nat → InvokeOutcome) :
    ∀ (ts : List TaskDefinition) (i : Nat), (results_of agents oracle ts i).length = ts.length := by
  intro ts
  induction ts with
  | nil => intro i; rfl
  | cons t rest ih => intro i; simp [results_of, ih]

/-- A FAILED `_execute_task` dict always carries an `error` key, so
reading it with the `"Task failed"` default returns exactly that
error. -/
theorem execute_task_failed_has_error (t : TaskDefinition) (agents : List Agent)
    (o : InvokeOutcome) (h : (execute_task t agents o).status = .failed) :
    (execute_task t agents o).error
      = some ((execute_task t agents o).error.getD "Task failed") := by
  unfold execute_task execute_workflow_step at h ⊢
  cases hsel : select_agent agents t.agent_id <;> simp [hsel] at h ⊢
  cases o <;> simp_all

/-- Fail-fast behavior of the task loop: when the tasks before `tf` all
yield non-FAILED results and `tf` yields a FAILED one, the loop appends
exactly the results of the prefix and of `tf`, stops (the tasks after
`tf` contribute nothing), marks the record FAILED with `tf`'s error,
and writes one progress value per started task. -/
theorem run_tasks_fail_fast (agents : List Agent) (oracle : Nat → InvokeOutcome)
    (total : Nat) (tf : TaskDefinition) (rest : List TaskDefinition) :
    ∀ (pre : List TaskDefinition) (i : Nat) (s : LoopState),
      (∀ j (h : j < pre.length),
        (execute_task (pre.get ⟨j, h⟩) agents (oracle (i + j))).status ≠ .failed) →
      (execute_task tf agents (oracle (i + pre.length))).status = .failed →
      (run_tasks agents oracle total (pre ++ tf :: rest) i s).results
          = s.results ++ results_of agents oracle pre i
              ++ [execute_task tf agents (oracle (i + pre.length))] ∧
      (run_tasks agents oracle total (pre ++ tf :: rest) i s).wd.status
          = ExecutionStatus.failed ∧
      (run_tasks agents oracle total (pre ++ tf :: rest) i s).wd.error
          = some ((execute_task tf agents (oracle (i + pre.length))).error.getD "Task failed") ∧
      (run_tasks agents oracle total (pre ++ tf :: rest) i s).progressWrites.length
          = s.progressWrites.length + pre.length + 1 := by
  intro pre
  induction pre with
  | nil =>
      intro i s hok hfail
      simp only [List.length_nil, Nat.add_zero] at hfail
      simp [run_tasks, results_of, hfail]
  | cons p pre ih =>
      intro i s hok hfail
      have hok0 : (execute_task p agents (oracle i)).status ≠ .failed := by
        simpa using hok 0 (by simp)
      have hidx : i + (p :: pre).length = i + 1 + pre.length := by
        simp [List.length_cons]
        omega
      have hfail2 : (execute_task tf agents (oracle (i + 1 + pre.length))).status
          = .failed := hidx ▸ hfail
      have hok2 : ∀ j (h : j < pre.length),
          (execute_task (pre.get ⟨j, h⟩) agents (oracle (i + 1 + j))).status ≠ .failed := by
        intro j h
        have h2 : j + 1 < (p :: pre).length := by simp; omega
        have h3 := hok (j + 1) h2
        have e2 : i + (j + 1) = i + 1 + j := by omega
        rw [e2] at h3
        exact h3
      simp only [List.cons_append, run_tasks, List.append_eq]
      rw [if_neg hok0]
      rw [hidx]
      refine ⟨?_, (ih (i + 1) _ hok2 hfail2).2.1, (ih (i + 1) _ hok2 hfail2).2.2.1, ?_⟩
      · rw [(ih (i + 1) _ hok2 hfail2).1]
        simp [results_of]
      · rw [(ih (i + 1) _ hok2 hfail2).2.2.2]
        simp [List.length_cons]
        omega

/-- Specialization of `run_tasks_fail_fast` to the loop's entry point
(index 0), with the oracle indices in their direct form. -/
theorem run_tasks_fail_fast_zero (agents : List Agent) (oracle : Nat → InvokeOutcome)
    (total : Nat) (tf : TaskDefinition) (rest : List TaskDefinition)
    (pre : List TaskDefinition) (s : LoopState)
    (hok : ∀ j (h : j < pre.length),
      (execute_task (pre.get ⟨j, h⟩) agents (oracle j)).status ≠ .failed)
    (hfail : (execute_task tf agents (oracle pre.length)).status = .failed) :
    (run_tasks agents oracle total (pre ++ tf :: rest) 0 s).results
        = s.results ++ results_of agents oracle pre 0
            ++ [execute_task tf agents (oracle pre.length)] ∧
    (run_tasks agents oracle total (pre ++ tf :: rest) 0 s).wd.status
        = ExecutionStatus.failed ∧
    (run_tasks agents oracle total (pre ++ tf :: rest) 0 s).wd.error
        = some ((execute_task tf agents (oracle pre.length)).error.getD "Task failed") ∧
    (run_tasks agents oracle total (pre ++ tf :: rest) 0 s).progressWrites.length
        = s.progressWrites.length + pre.length + 1 := by
  have hok2 : ∀ j (h : j < pre.length),
      (execute_task (pre.get ⟨j, h⟩) agents (oracle (0 + j))).status ≠ .failed := by
    intro j h
    rw [Nat.zero_add]
    exact hok j h
  have hfail2 : (execute_task tf agents (oracle (0 + pre.length))).status = .failed := by
    rw [Nat.zero_add]
    exact hfail
  have H := run_tasks_fail_fast agents oracle total tf rest pre 0 s hok2 hfail2
  simpa using H

/-! Claim theorems. -/

/-- C3 counterexample: submitting with an empty agent list does fail the
execution immediately, but the recorded error is the exception message
`"No agents created for workflow"`, not `"no agents available"` as the
claim states. -/
theorem C3_counterexample :
    (execute_workflow 0 0 oracleOk (mk_workflow_data "e1" "w" crewEmpty [taskA1] [] 0)).record.status
        = ExecutionStatus.failed ∧
    (execute_workflow 0 0 oracleOk (mk_workflow_data "e1" "w" crewEmpty [taskA1] [] 0)).record.error
        ≠ some "no agents available" := by
  constructor <;> decide

/-- C3 (amended): for every submission whose crew descriptor yields no
materialized agents, the execution fails immediately with status FAILED
and error message `"No agents created for workflow"`, zero TaskResults
are produced, no results list is attached to the record, no progress is
written, and no task is attempted (the only events published are
`workflow_started` and `workflow_failed`). -/
theorem C3_no_agents_immediate_failure (eid wid : String) (crew : CrewData)
    (tasks : List TaskDefinition) (inputs : List (String × String))
    (tsub t0 t1 : Nat) (oracle : Nat → InvokeOutcome)
    (hempty : create_agents_from_templates crew.agents = []) :
    (execute_workflow t0 t1 oracle (mk_workflow_data eid wid crew tasks inputs tsub)).record.status
        = ExecutionStatus.failed ∧
    (execute_workflow t0 t1 oracle (mk_workflow_data eid wid crew tasks inputs tsub)).record.error
        = some "No agents created for workflow" ∧
    (execute_workflow t0 t1 oracle (mk_workflow_data eid wid crew tasks inputs tsub)).results = [] ∧
    (execute_workflow t0 t1 oracle (mk_workflow_data eid wid crew tasks inputs tsub)).record.results
        = none ∧
    (execute_workflow t0 t1 oracle (mk_workflow_data eid wid crew tasks inputs tsub)).progressWrites
        = [] ∧
    (execute_workflow t0 t1 oracle (mk_workflow_data eid wid crew tasks inputs tsub)).events
        = [⟨wid, "workflow_started"⟩, ⟨wid, "workflow_failed"⟩] := by
  simp [execute_workflow, hempty, mk_workflow_data]

/-- C3 witness: the amended theorem applied to a concrete submission
with an empty agent list. -/
theorem C3_no_agents_immediate_failure_witness :
    (execute_workflow 3 4 oracleOk (mk_workflow_data "e9" "w9" crewEmpty [taskA1] [] 1)).record.error
        = some "No agents created for workflow" ∧
    (execute_workflow 3 4 oracleOk (mk_workflow_data "e9" "w9" crewEmpty [taskA1] [] 1)).results
        = [] :=
  ⟨(C3_no_agents_immediate_failure "e9" "w9" crewEmpty [taskA1] [] 1 3 4 oracleOk (by decide)).2.1,
    (C3_no_agents_immediate_failure "e9" "w9" crewEmpty [taskA1] [] 1 3 4 oracleOk (by decide)).2.2.1⟩

/-- C8: whenever an exception reaches the top-level handler of the
runner (the only raise site reachable in the embedded code is agent
materialization yielding no agents), the record is set to status FAILED
with the exception message as the error, `completed_at` is stamped with
the completion clock, and a `workflow_failed` event is published; the
runner itself is a total function, so no exception ever propagates to
its caller. -/
theorem C8_top_level_exception_handling (t0 t1 : Nat) (oracle : Nat → InvokeOutcome)
    (wd0 : WorkflowData) (e : String)
    (h : (execute_workflow t0 t1 oracle wd0).raised = some e) :
    (execute_workflow t0 t1 oracle wd0).record.status = ExecutionStatus.failed ∧
    (execute_workflow t0 t1 oracle wd0).record.error = some e ∧
    (execute_workflow t0 t1 oracle wd0).record.completed_at = some t1 ∧
    Event.mk wd0.workflow_id "workflow_failed" ∈ (execute_workflow t0 t1 oracle wd0).events := by
  revert h
  simp only [execute_workflow]
  split
  · intro h
    simp only [Option.some.injEq] at h
    subst h
    refine ⟨rfl, rfl, rfl, ?_⟩
    simp
  · intro h
    simp at h

/-- C8 witness: the theorem applied to a concrete run whose agent
materialization yields no agents. -/
theorem C8_top_level_exception_handling_witness :
    (execute_workflow 0 1 oracleOk (mk_workflow_data "e8" "w8" crewEmpty [] [] 0)).raised
        = some "No agents created for workflow" ∧
    (execute_workflow 0 1 oracleOk (mk_workflow_data "e8" "w8" crewEmpty [] [] 0)).record.error
        = some "No agents created for workflow" :=
  ⟨by decide,
    (C8_top_level_exception_handling 0 1 oracleOk (mk_workflow_data "e8" "w8" crewEmpty [] [] 0)
        "No agents created for workflow" (by decide)).2.1⟩

/-- C5: for every submitted workflow, after the runner finishes, the
record's `execution_time` and `tokens_used` totals (read with the
`.get(..., 0)` default, as every consumer does) equal the sums over the
TaskResults produced by the run of their per-task `execution_time` and
`tokens_used` values; the 3-task all-success scenario is the instance
with three tasks and an all-success oracle. -/
theorem C5_totals_are_sums (eid wid : String) (crew : CrewData)
    (tasks : List TaskDefinition) (inputs : List (String × String))
    (tsub t0 t1 : Nat) (oracle : Nat → InvokeOutcome) :
    (execute_workflow t0 t1 oracle (mk_workflow_data eid wid crew tasks inputs tsub)).record.execution_time.getD 0
        = total_execution_time
            (execute_workflow t0 t1 oracle (mk_workflow_data eid wid crew tasks inputs tsub)).results ∧
    (execute_workflow t0 t1 oracle (mk_workflow_data eid wid crew tasks inputs tsub)).record.tokens_used.getD 0
        = total_tokens_used
            (execute_workflow t0 t1 oracle (mk_workflow_data eid wid crew tasks inputs tsub)).results := by
  simp only [execute_workflow]
  split
  · simp [mk_workflow_data, total_execution_time, total_tokens_used]
  · simp

/-- C10: the per-task results list is attached to the record exactly
when the run finishes COMPLETED; a run that finishes FAILED leaves the
record without a results list, while still carrying an error message
and the completion timestamp. -/
theorem C10_results_only_on_completed (eid wid : String) (crew : CrewData)
    (tasks : List TaskDefinition) (inputs : List (String × String))
    (tsub t0 t1 : Nat) (oracle : Nat → InvokeOutcome) :
    ((execute_workflow t0 t1 oracle (mk_workflow_data eid wid crew tasks inputs tsub)).record.status
          = ExecutionStatus.completed →
        (execute_workflow t0 t1 oracle (mk_workflow_data eid wid crew tasks inputs tsub)).record.results
          = some (execute_workflow t0 t1 oracle (mk_workflow_data eid wid crew tasks inputs tsub)).results) ∧
    ((execute_workflow t0 t1 oracle (mk_workflow_data eid wid crew tasks inputs tsub)).record.status
          = ExecutionStatus.failed →
        (execute_workflow t0 t1 oracle (mk_workflow_data eid wid crew tasks inputs tsub)).record.results
            = none ∧
          (execute_workflow t0 t1 oracle (mk_workflow_data eid wid crew tasks inputs tsub)).record.error
            ≠ none ∧
          (execute_workflow t0 t1 oracle (mk_workflow_data eid wid crew tasks inputs tsub)).record.completed_at
            = some t1) := by
  simp only [execute_workflow]
  split
  · refine ⟨fun h => by simp at h, fun _ => ⟨?_, by simp, rfl⟩⟩
    simp [mk_workflow_data]
  · split
    · refine ⟨fun _ => rfl, fun h => absurd h (by simp)⟩
    · rename_i hne
      push_neg at hne
      refine ⟨fun h => ?_, fun _ => ⟨?_, ?_, rfl⟩⟩
      · simp [hne] at h
      · simp [run_tasks_results_inv, mk_workflow_data]
      · obtain ⟨msg, hmsg⟩ :=
          run_tasks_failed_error _ _ _ _ _ _ (by simp [mk_workflow_data]) hne
        simp [hmsg]

/-- C10 witness: a concrete all-success run attaches its results list,
and a concrete failing run does not. -/
theorem C10_results_only_on_completed_witness :
    (execute_workflow 0 9 oracleOk (mk_workflow_data "ew" "ww" crewA [taskA1] [] 0)).record.results
        = some (execute_workflow 0 9 oracleOk (mk_workflow_data "ew" "ww" crewA [taskA1] [] 0)).results ∧
    (execute_workflow 0 9 oracleBoom (mk_workflow_data "ew" "ww" crewA [taskA1] [] 0)).record.results
        = none :=
  ⟨(C10_results_only_on_completed "ew" "ww" crewA [taskA1] [] 0 0 9 oracleOk).1 (by decide),
    ((C10_results_only_on_completed "ew" "ww" crewA [taskA1] [] 0 0 9 oracleBoom).2 (by decide)).1⟩


/-- C1: fail-fast over the submitted task list `pre ++ tf :: rest`: if
the Task Executor reports the tasks of `pre` as non-FAILED and `tf`
(task number `pre.length + 1`) as FAILED, then the run produces exactly
the TaskResults of `pre` followed by `tf`'s (none for the tasks after
`tf`), exactly `pre.length + 1` TaskResults and progress writes exist,
the final status is FAILED, and the recorded execution error equals
`tf`'s TaskResult error. -/
theorem C1_fail_fast (eid wid : String) (crew : CrewData)
    (pre : List TaskDefinition) (tf : TaskDefinition) (rest : List TaskDefinition)
    (inputs : List (String × String)) (tsub t0 t1 : Nat) (oracle : Nat → InvokeOutcome)
    (hagents : create_agents_from_templates crew.agents ≠ [])
    (hok : ∀ j (h : j < pre.length),
      (execute_task (pre.get ⟨j, h⟩) (create_agents_from_templates crew.agents)
          (oracle j)).status ≠ ExecutionStatus.failed)
    (hfail : (execute_task tf (create_agents_from_templates crew.agents)
        (oracle pre.length)).status = ExecutionStatus.failed) :
    (execute_workflow t0 t1 oracle
        (mk_workflow_data eid wid crew (pre ++ tf :: rest) inputs tsub)).results
      = results_of (create_agents_from_templates crew.agents) oracle pre 0
          ++ [execute_task tf (create_agents_from_templates crew.agents) (oracle pre.length)] ∧
    (execute_workflow t0 t1 oracle
        (mk_workflow_data eid wid crew (pre ++ tf :: rest) inputs tsub)).results.length
      = pre.length + 1 ∧
    (execute_workflow t0 t1 oracle
        (mk_workflow_data eid wid crew (pre ++ tf :: rest) inputs tsub)).record.status
      = ExecutionStatus.failed ∧
    (execute_workflow t0 t1 oracle
        (mk_workflow_data eid wid crew (pre ++ tf :: rest) inputs tsub)).record.error
      = (execute_task tf (create_agents_from_templates crew.agents) (oracle pre.length)).error ∧
    (execute_workflow t0 t1 oracle
        (mk_workflow_data eid wid crew (pre ++ tf :: rest) inputs tsub)).progressWrites.length
      = pre.length + 1 := by
  have hres : (execute_workflow t0 t1 oracle
      (mk_workflow_data eid wid crew (pre ++ tf :: rest) inputs tsub)).results
      = results_of (create_agents_from_templates crew.agents) oracle pre 0
          ++ [execute_task tf (create_agents_from_templates crew.agents) (oracle pre.length)] := by
    simp only [execute_workflow, mk_workflow_data]
    rw [if_neg (fun hc => hagents (List.isEmpty_iff.mp hc))]
    split
    · rename_i hfc
      exact absurd (run_tasks_fail_fast_zero _ oracle _ tf rest pre _ hok hfail).2.1 hfc
    · exact (run_tasks_fail_fast_zero _ oracle _ tf rest pre _ hok hfail).1
  have herr : (execute_workflow t0 t1 oracle
      (mk_workflow_data eid wid crew (pre ++ tf :: rest) inputs tsub)).record.error
      = some ((execute_task tf (create_agents_from_templates crew.agents)
          (oracle pre.length)).error.getD "Task failed") := by
    simp only [execute_workflow, mk_workflow_data]
    rw [if_neg (fun hc => hagents (List.isEmpty_iff.mp hc))]
    split
    · rename_i hfc
      exact absurd (run_tasks_fail_fast_zero _ oracle _ tf rest pre _ hok hfail).2.1 hfc
    · exact (run_tasks_fail_fast_zero _ oracle _ tf rest pre _ hok hfail).2.2.1
  refine ⟨hres, ?_, ?_, ?_, ?_⟩
  · rw [hres]
    simp [results_of_length]
  · simp only [execute_workflow, mk_workflow_data]
    rw [if_neg (fun hc => hagents (List.isEmpty_iff.mp hc))]
    split
    · rename_i hfc
      exact absurd (run_tasks_fail_fast_zero _ oracle _ tf rest pre _ hok hfail).2.1 hfc
    · exact (run_tasks_fail_fast_zero _ oracle _ tf rest pre _ hok hfail).2.1
  · rw [herr]
    exact (execute_task_failed_has_error _ _ _ hfail).symm
  · simp only [execute_workflow, mk_workflow_data]
    rw [if_neg (fun hc => hagents (List.isEmpty_iff.mp hc))]
    split
    · rename_i hfc
      exact absurd (run_tasks_fail_fast_zero _ oracle _ tf rest pre _ hok hfail).2.1 hfc
    · simp only [List.append_nil]
      rw [(run_tasks_fail_fast_zero _ oracle _ tf rest pre _ hok hfail).2.2.2]
      simp

/-- C1 witness: a concrete 3-task workflow whose second task raises
`"timeout"`: two TaskResults, final status FAILED, error `"timeout"`. -/
theorem C1_fail_fast_witness :
    (execute_workflow 0 9 oracleSecondFails
        (mk_workflow_data "e" "w" crewA ([taskA1] ++ taskA2 :: [taskA3]) [] 0)).results.length
      = [taskA1].length + 1 ∧
    (execute_workflow 0 9 oracleSecondFails
        (mk_workflow_data "e" "w" crewA ([taskA1] ++ taskA2 :: [taskA3]) [] 0)).record.status
      = ExecutionStatus.failed ∧
    (execute_workflow 0 9 oracleSecondFails
        (mk_workflow_data "e" "w" crewA ([taskA1] ++ taskA2 :: [taskA3]) [] 0)).record.error
      = some "timeout" :=
  have h := C1_fail_fast "e" "w" crewA [taskA1] taskA2 [taskA3] [] 0 0 9 oracleSecondFails
    (by decide) (by decide) (by decide)
  ⟨h.2.1, h.2.2.1, by rw [h.2.2.2.1]; decide⟩

/-- The loop performs at most one iteration per task. -/
theorem executed_count_le (agents : List Agent) (oracle : Nat → InvokeOutcome) :
    ∀ (ts : List TaskDefinition) (i : Nat),
      executed_count agents oracle ts i ≤ ts.length := by
  intro ts
  induction ts with
  | nil => intro i; simp [executed_count]
  | cons t rest ih =>
      intro i
      simp only [executed_count, List.length_cons]
      split
      · omega
      · have := ih (i + 1)
        omega

/-- The successive progress values the loop writes are exactly the
fractions `(i+j+1)/total` for the executed iterations `j`. -/
theorem run_tasks_writes (agents : List Agent) (oracle : Nat → InvokeOutcome)
    (total : Nat) :
    ∀ (ts : List TaskDefinition) (i : Nat) (s : LoopState),
      (run_tasks agents oracle total ts i s).progressWrites
        = s.progressWrites
            ++ (List.range (executed_count agents oracle ts i)).map
                (fun j => progress_val total (i + j + 1)) := by
  intro ts
  induction ts with
  | nil => intro i s; simp [run_tasks, executed_count]
  | cons t rest ih =>
      intro i s
      simp only [run_tasks, executed_count]
      by_cases hfail : (execute_task t agents (oracle i)).status = .failed
      · rw [if_pos hfail, if_pos hfail]
        rw [show List.range 1 = [0] from rfl]
        simp only [List.map_cons, List.map_nil]
        congr 2
        simp only [progress_val]
        push_cast
        ring
      · rw [if_neg hfail, if_neg hfail, ih]
        have hrange : List.range (1 + executed_count agents oracle rest (i + 1))
            = 0 :: (List.range (executed_count agents oracle rest (i + 1))).map Nat.succ := by
          rw [Nat.add_comm]
          exact List.range_succ_eq_map _
        rw [hrange]
        simp only [List.map_cons, List.map_map, List.append_assoc, List.singleton_append]
        congr 1
        congr 1
        · simp only [progress_val]
          push_cast
          ring
        · apply List.map_congr_left
          intro j hj
          simp only [Function.comp_apply]
          congr 1
          omega

/-- Progress fractions are nonnegative. -/
theorem progress_val_nonneg (total n : Nat) : 0 ≤ progress_val total n := by
  unfold progress_val
  positivity

/-- A progress fraction with numerator at most the denominator is at
most one (also when the denominator is zero, since `x / 0 = 0`). -/
theorem progress_val_le_one (total n : Nat) (h : n ≤ total) :
    progress_val total n ≤ 1 := by
  unfold progress_val
  rcases Nat.eq_zero_or_pos total with h0 | h0
  · subst h0
    simp
  · rw [div_le_one (by exact_mod_cast h0)]
    exact_mod_cast h

/-- Progress fractions are monotone in the numerator. -/
theorem progress_val_mono (total : Nat) {a b : Nat} (h : a ≤ b) :
    progress_val total a ≤ progress_val total b := by
  unfold progress_val
  rcases Nat.eq_zero_or_pos total with h0 | h0
  · subst h0
    simp
  · have ht : (0 : Rat) < (total : Rat) := by exact_mod_cast h0
    rw [div_le_div_iff_of_pos_right ht]
    exact_mod_cast h

/-- A nondecreasing list of values in `[0, 1]`, prefixed with `0` and
optionally followed by `[1]`, is a nondecreasing chain. -/
theorem chain_le_aux (l tail : List Rat)
    (hl : List.Pairwise (· ≤ ·) l) (h0 : ∀ x ∈ l, 0 ≤ x) (h1 : ∀ x ∈ l, x ≤ 1)
    (htail : tail = [] ∨ tail = [(1 : Rat)]) :
    List.Chain' (· ≤ ·) ((0 : Rat) :: (l ++ tail)) := by
  rw [List.chain'_iff_pairwise, List.pairwise_cons]
  constructor
  · intro x hx
    rcases List.mem_append.mp hx with h | h
    · exact h0 x h
    · rcases htail with rfl | rfl
      · simp at h
      · simp at h
        subst h
        norm_num
  · rw [List.pairwise_append]
    refine ⟨hl, ?_, ?_⟩
    · rcases htail with rfl | rfl <;> simp
    · intro a ha b hb
      rcases htail with rfl | rfl
      · simp at hb
      · simp at hb
        subst hb
        exact h1 a ha

/-- C2 counterexample: a one-task workflow whose only task fails.  The
loop writes progress 1.0 before executing the task (progress is set to
`(i+1)/total` at the start of iteration `i`), the task then fails, and
the execution ends FAILED with recorded progress 1.0 — so progress
reaches 1.0 without the status ever becoming COMPLETED, refuting the
"reaches 1.0 iff COMPLETED" half of the claim. -/
theorem C2_counterexample :
    (execute_workflow 0 9 oracleBoom (mk_workflow_data "e1" "w" crewA [taskA1] [] 0)).record.progress
        = some 1 ∧
    (execute_workflow 0 9 oracleBoom (mk_workflow_data "e1" "w" crewA [taskA1] [] 0)).progressWrites
        = [(1 : Rat)] ∧
    (execute_workflow 0 9 oracleBoom (mk_workflow_data "e1" "w" crewA [taskA1] [] 0)).record.status
        = ExecutionStatus.failed := by
  refine ⟨?_, ?_, ?_⟩
  · simp [execute_workflow, mk_workflow_data, run_tasks, execute_task, select_agent,
      execute_workflow_step, create_agents_from_templates, crewA, agentA, taskA1, oracleBoom]
  · simp [execute_workflow, mk_workflow_data, run_tasks, execute_task, select_agent,
      execute_workflow_step, create_agents_from_templates, crewA, agentA, taskA1, oracleBoom]
  · decide

/-- C2 (amended): the progress values written over an execution's
lifetime are non-decreasing (starting from the absent-key default 0),
and if the status becomes COMPLETED the last progress write is 1.0.
The converse direction of the original claim fails: progress also
reaches 1.0 on a FAILED execution whose final task fails (see the
counterexample). -/
theorem C2_progress_monotone (eid wid : String) (crew : CrewData)
    (tasks : List TaskDefinition) (inputs : List (String × String))
    (tsub t0 t1 : Nat) (oracle : Nat → InvokeOutcome) :
    List.Chain' (· ≤ ·)
      ((0 : Rat) :: (execute_workflow t0 t1 oracle
          (mk_workflow_data eid wid crew tasks inputs tsub)).progressWrites) ∧
    ((execute_workflow t0 t1 oracle
        (mk_workflow_data eid wid crew tasks inputs tsub)).record.status
          = ExecutionStatus.completed →
      (execute_workflow t0 t1 oracle
          (mk_workflow_data eid wid crew tasks inputs tsub)).progressWrites.getLast?
        = some 1) := by
  constructor
  · simp only [execute_workflow, mk_workflow_data]
    split
    · simp
    · rw [run_tasks_writes]
      simp only [List.nil_append]
      apply chain_le_aux
      · exact (List.pairwise_lt_range _).map _
          (fun a b hab => progress_val_mono _ (by omega))
      · intro x hx
        obtain ⟨j, hj, rfl⟩ := List.mem_map.mp hx
        exact progress_val_nonneg _ _
      · intro x hx
        obtain ⟨j, hj, rfl⟩ := List.mem_map.mp hx
        rw [List.mem_range] at hj
        have hle := executed_count_le (create_agents_from_templates crew.agents) oracle tasks 0
        exact progress_val_le_one _ _ (by omega)
      · split
        · exact Or.inr rfl
        · exact Or.inl rfl
  · simp only [execute_workflow, mk_workflow_data]
    split
    · intro h
      simp at h
    · split
      · intro h
        simp
      · rename_i hfc
        push_neg at hfc
        intro h
        simp [hfc] at h

/-- C2 witness: a concrete two-task all-success run finishes COMPLETED
and its last progress write is 1.0. -/
theorem C2_progress_monotone_witness :
    (execute_workflow 0 9 oracleOk
        (mk_workflow_data "e2" "w2" crewA [taskA1, taskA2] [] 0)).record.status
      = ExecutionStatus.completed ∧
    (execute_workflow 0 9 oracleOk
        (mk_workflow_data "e2" "w2" crewA [taskA1, taskA2] [] 0)).progressWrites.getLast?
      = some 1 :=
  ⟨by decide,
    (C2_progress_monotone "e2" "w2" crewA [taskA1, taskA2] [] 0 0 9 oracleOk).2 (by decide)⟩

/-- Updating the record stored under a key keeps it findable under that
key: the first binding of `eid` after `storeExec` holds the new
record. -/
theorem find_storeExec (m : List (String × WorkflowData)) (eid : String)
    (wd wd2 : WorkflowData)
    (h : (m.find? (fun p => p.1 = eid)).map (fun p => p.2) = some wd) :
    ((storeExec m eid wd2).find? (fun p => p.1 = eid)).map (fun p => p.2) = some wd2 := by
  induction m with
  | nil => simp at h
  | cons p rest ih =>
      obtain ⟨k, v⟩ := p
      by_cases hk : k = eid
      · subst hk
        simp [storeExec, List.find?]
      · simp only [storeExec]
        rw [if_neg hk]
        rw [List.find?_cons_of_neg _ (by simp [hk])]
        rw [List.find?_cons_of_neg _ (by simp [hk])] at h
        exact ih h

/-- C4 counterexample: two tracked executions share workflow id `"w"`;
`"e2"` is the more recently created and still PENDING (active), yet the
status query returns the snapshot of the first-inserted `"e1"`, which
differs from `"e2"`'s snapshot — not the most recently created one. -/
theorem C4_counterexample :
    (get_workflow_status S4.active_workflows "w").map (fun s => s.name) = some "Crew A" ∧
    (lookupExec S4 "e1").map (fun wd => wd.created_at) = some 0 ∧
    (lookupExec S4 "e2").map (fun wd => wd.created_at) = some 5 ∧
    (lookupExec S4 "e2").map (fun wd => (wd.workflow_id, wd.status))
        = some ("w", ExecutionStatus.pending) ∧
    get_workflow_status S4.active_workflows "w" ≠ (lookupExec S4 "e2").map (to_status "w") := by
  refine ⟨?_, ?_, ?_, ?_, ?_⟩ <;> decide

/-- C4 (amended): the status query returns the snapshot of the
first-inserted (oldest) tracked execution whose workflow id matches
(whether or not it is terminal), and returns not-found exactly when no
tracked execution carries that workflow id. -/
theorem C4_status_returns_first_match (m : List (String × WorkflowData)) (wid : String) :
    get_workflow_status m wid
        = (m.find? (fun p => p.2.workflow_id = wid)).map (fun p => to_status wid p.2) ∧
    (get_workflow_status m wid = none ↔ ∀ p ∈ m, p.2.workflow_id ≠ wid) := by
  refine ⟨get_workflow_status_eq_find m wid, ?_⟩
  rw [get_workflow_status_eq_find m wid]
  simp [List.find?_eq_none]

/-- C4 witness: the amended theorem applied to the concrete two-record
state, for a workflow id that no execution carries. -/
theorem C4_status_returns_first_match_witness :
    get_workflow_status S4.active_workflows "nope" = none :=
  (C4_status_returns_first_match S4.active_workflows "nope").2.mpr (by decide)

/-- C6 counterexample: two engine maps that differ only in the FAILED
record's error string produce identical status-query answers, so the
returned snapshot cannot carry the execution's error (the
`WorkflowStatus` schema has no error field and `get_workflow_status`
passes none). -/
theorem C6_counterexample :
    wdFail1.status = ExecutionStatus.failed ∧
    wdFail1.error ≠ wdFail2.error ∧
    get_workflow_status [("e1", wdFail1)] "w" = get_workflow_status [("e1", wdFail2)] "w" := by
  refine ⟨?_, ?_, ?_⟩ <;> decide

/-- C6 (amended): for a FAILED execution that is the first match for
its workflow id, the status query returns a snapshot carrying status
FAILED, but the snapshot does not include the execution's error string
(the snapshot is unchanged under any change of the record's error
field). -/
theorem C6_failed_status_snapshot (m : List (String × WorkflowData)) (wid : String)
    (p : String × WorkflowData)
    (hfind : m.find? (fun q => q.2.workflow_id = wid) = some p)
    (hfailed : p.2.status = ExecutionStatus.failed) :
    get_workflow_status m wid = some (to_status wid p.2) ∧
    (to_status wid p.2).status = ExecutionStatus.failed ∧
    ∀ e, to_status wid { p.2 with error := e } = to_status wid p.2 := by
  refine ⟨?_, ?_, ?_⟩
  · rw [get_workflow_status_eq_find, hfind]
    rfl
  · simp [to_status, hfailed]
  · intro e
    rfl

/-- C6 witness: the amended theorem applied to a concrete FAILED
record. -/
theorem C6_failed_status_snapshot_witness :
    get_workflow_status [("e1", wdFail1)] "w" = some (to_status "w" wdFail1) ∧
    (to_status "w" wdFail1).status = ExecutionStatus.failed :=
  have h := C6_failed_status_snapshot [("e1", wdFail1)] "w" ("e1", wdFail1)
    (by decide) (by decide)
  ⟨h.1, h.2.1⟩

/-- C7: evaluation of the engine at the failing input.  An execution is
cancelled while still PENDING (never started, `started_at` unset), yet
it remains in the queue; when a worker dequeues it, the runner's first
status write is RUNNING — `_execute_workflow` never consults the
CANCELLED flag — and the record even finishes COMPLETED, overwriting
the cancellation. -/
theorem C7_cancelled_pending_enters_running :
    (lookupExec S7a "e1").map (fun wd => wd.status) = some ExecutionStatus.pending ∧
    (lookupExec S7b "e1").map (fun wd => wd.status) = some ExecutionStatus.cancelled ∧
    (lookupExec S7b "e1").map (fun wd => wd.started_at) = some none ∧
    S7b.queue = ["e1"] ∧
    (execute_workflow 1 2 oracleOk
        ((lookupExec S7b "e1").getD (mk_workflow_data "x" "x" crewA [] [] 0))).statusWrites.head?
      = some ExecutionStatus.running ∧
    (lookupExec (worker_step S7b 1 2 oracleOk) "e1").map (fun wd => wd.status)
      = some ExecutionStatus.completed := by
  refine ⟨?_, ?_, ?_, ?_, ?_, ?_⟩ <;> decide

/-- C9 counterexample: an execution cancelled while still PENDING does
receive `cancelled_at` and no `completed_at` at cancel time, but it is
still in the queue; a worker later runs it, stamping `completed_at`,
after which the cleanup DOES remove it — refuting "never removed by
cleanup". -/
theorem C9_counterexample :
    (lookupExec S9a "e1").map (fun wd => wd.status) = some ExecutionStatus.pending ∧
    (lookupExec S9b "e1").map (fun wd => (wd.status, wd.cancelled_at, wd.completed_at))
        = some (ExecutionStatus.cancelled, some 0, none) ∧
    (lookupExec S9c "e1").map (fun wd => wd.completed_at) = some (some 2) ∧
    (cleanup_completed_workflows S9c 4000).active_workflows = [] ∧
    S9c.active_workflows ≠ [] := by
  refine ⟨?_, ?_, ?_, ?_, ?_⟩ <;> decide

/-- C9 (amended): cleanup removes exactly the records with terminal
status (COMPLETED, FAILED or CANCELLED) whose `completed_at` is set and
lies more than 3600 seconds in the past, leaving every other record in
place in order; and cancelling a tracked execution only sets its status
to CANCELLED and stamps `cancelled_at`, leaving `completed_at` (and
every other field) unchanged — so a PENDING-cancelled record is not
removable by cleanup unless a worker subsequently dequeues and runs it
(which stamps `completed_at`; see the counterexample). -/
theorem C9_cleanup_exact (s : EngineState) (now : Nat) (eid : String)
    (hnodup : (s.active_workflows.map (fun p => p.1)).Nodup) :
    (cleanup_completed_workflows s now).active_workflows
        = s.active_workflows.filter (fun p => ¬ shouldReap p.2 now) ∧
    (∀ wd, lookupExec s eid = some wd →
      lookupExec (cancel_workflow s eid now).1 eid
          = some { wd with status := ExecutionStatus.cancelled, cancelled_at := some now }) := by
  constructor
  · unfold cleanup_completed_workflows
    apply List.filter_congr
    intro p hp
    have hiff : (p.1 ∈ (List.filter (fun q => shouldReap q.2 now) s.active_workflows).map
        (fun q => q.1)) ↔ (shouldReap p.2 now = true) := by
      constructor
      · intro hmem
        obtain ⟨q, hq, hq1⟩ := List.mem_map.mp hmem
        have hqA := (List.mem_filter.mp hq).1
        have hqr := (List.mem_filter.mp hq).2
        have hqp : q = p := List.inj_on_of_nodup_map hnodup hqA hp hq1
        subst hqp
        exact hqr
      · intro hr
        exact List.mem_map.mpr ⟨p, List.mem_filter.mpr ⟨hp, hr⟩, rfl⟩
    simp [hiff]
  · intro wd hwd
    simp only [cancel_workflow, hwd]
    exact find_storeExec s.active_workflows eid wd _ hwd

/-- C9 witness: the amended theorem applied to the concrete
one-execution state. -/
theorem C9_cleanup_exact_witness :
    (cleanup_completed_workflows S9a 0).active_workflows
        = S9a.active_workflows.filter (fun p => ¬ shouldReap p.2 0) ∧
    lookupExec (cancel_workflow S9a "e1" 0).1 "e1"
        = some { mk_workflow_data "e1" "w" crewA [] [] 0 with
            status := ExecutionStatus.cancelled, cancelled_at := some 0 } :=
  have h := C9_cleanup_exact S9a 0 "e1" (by decide)
  ⟨h.1, h.2 (mk_workflow_data "e1" "w" crewA [] [] 0) (by decide)⟩

end RajCrewsAI
